import Mathlib

/-!
Verification development for the `travel_agent` pipeline
(`src/travel_agent/{tools,nodes,state,graph}.py`).

The Python source is shallowly embedded: pure functions become Lean
functions, the LLM service and the web-search tool are external
collaborators modelled as function parameters, the unbounded
`while response.tool_calls` loop is modelled with explicit fuel (a run
that returns `Except.ok none` has not terminated within the given fuel),
and Python exceptions are modelled with `Except` (an `Except.error`
escaping a definition models an uncaught exception).
-/

namespace TravelAgent

/-! ## Tools (`src/travel_agent/tools.py`)

`calculate_trip_duration` parses its two arguments with
`datetime.strptime(_, "%Y-%m-%d")`.  CPython's `_strptime` matches `%Y`
as exactly four digits, `%m` as `1[0-2]|0[1-9]|[1-9]`, `%d` as
`3[01]|[12]\d|0[1-9]|[1-9]`, requires the whole string to match, and
`datetime(y, m, d)` then rejects year 0 and a day beyond the month
length.  That is embedded in `parseDate` below (digits are ASCII
digits).  The day difference of `datetime` subtraction is embedded via
the standard civil-calendar day-numbering (`daysFromCivil`). -/

/-- Splitting on `'-'`, accumulator-based (the Lean-core `String.splitOn`
is position-based and does not evaluate in the kernel, so the same
function is defined here structurally over the character list). -/
def splitOnDashAux : List Char → List Char → List (List Char)
  | [], acc => [acc.reverse]
  | c :: cs, acc =>
    if c = '-' then acc.reverse :: splitOnDashAux cs []
    else splitOnDashAux cs (c :: acc)

def splitOnDash (s : List Char) : List (List Char) := splitOnDashAux s []

def digitVal (c : Char) : Nat := c.toNat - 48

def digitsToNat (l : List Char) : Nat := l.foldl (fun a c => a * 10 + digitVal c) 0

def allDigits (l : List Char) : Bool := l.all (fun c => c.isDigit)

def isLeapYear (y : Nat) : Bool := y % 4 == 0 && (y % 100 != 0 || y % 400 == 0)

def daysInMonth (y m : Nat) : Nat :=
  if m = 2 then (if isLeapYear y then 29 else 28)
  else if m = 4 ∨ m = 6 ∨ m = 9 ∨ m = 11 then 30
  else 31

structure Date where
  year : Nat
  month : Nat
  day : Nat
deriving Repr, DecidableEq

def parseDate (s : String) : Option Date :=
  match splitOnDash s.data with
  | [ys, ms, ds] =>
    if ys.length = 4 ∧ allDigits ys
        ∧ (ms.length = 1 ∨ ms.length = 2) ∧ allDigits ms
        ∧ (ds.length = 1 ∨ ds.length = 2) ∧ allDigits ds then
      let y := digitsToNat ys
      let m := digitsToNat ms
      let d := digitsToNat ds
      if 1 ≤ y ∧ 1 ≤ m ∧ m ≤ 12 ∧ 1 ≤ d ∧ d ≤ daysInMonth y m then
        some ⟨y, m, d⟩
      else none
    else none
  | _ => none

/-- Day number of a civil date (all parsed dates have `year ≥ 1`, so every
intermediate quantity is nonnegative and the division convention is
irrelevant). -/
def daysFromCivil (dt : Date) : Int :=
  let y : Int := if dt.month ≤ 2 then (dt.year : Int) - 1 else (dt.year : Int)
  let era : Int := y / 400
  let yoe : Int := y - era * 400
  let mp : Int := if 2 < dt.month then (dt.month : Int) - 3 else (dt.month : Int) + 9
  let doy : Int := (153 * mp + 2) / 5 + (dt.day : Int) - 1
  let doe : Int := yoe * 365 + yoe / 4 - yoe / 100 + doy
  era * 146097 + doe - 719468

/-- `tools.calculate_trip_duration`: `strptime` both arguments, return
`(end - start).days + 1` formatted as `"N days"`; a `ValueError` from
parsing is caught and turned into the fixed invalid-date text. -/
def calculate_trip_duration (start_date end_date : String) : String :=
  match parseDate start_date, parseDate end_date with
  | some s, some e => toString (daysFromCivil e - daysFromCivil s + 1) ++ " days"
  | _, _ => "Invalid date format. Please use YYYY-MM-DD."

/-- The `northern_hemisphere_seasons` dict of `tools.get_season_info`. -/
def northern_hemisphere_seasons : List (String × String) :=
  [("12", "Winter"), ("1", "Winter"), ("2", "Winter"),
   ("3", "Spring"), ("4", "Spring"), ("5", "Spring"),
   ("6", "Summer"), ("7", "Summer"), ("8", "Summer"),
   ("9", "Fall"), ("10", "Fall"), ("11", "Fall")]

/-- The `month_names` dict of `tools.get_season_info`. -/
def month_names : List (String × String) :=
  [("january", "1"), ("february", "2"), ("march", "3"), ("april", "4"),
   ("may", "5"), ("june", "6"), ("july", "7"), ("august", "8"),
   ("september", "9"), ("october", "10"), ("november", "11"), ("december", "12")]

/-- Python `str.lower` on the ASCII inputs at issue (the Lean-core
`String.toLower` is defined through a position-based `String.map` that
the kernel cannot evaluate, so the same character map is applied to the
character list directly). -/
def pyLower (s : String) : String := ⟨s.data.map Char.toLower⟩

/-- The season computation of `tools.get_season_info`:
`month_num = month_names.get(month.lower(), month)` followed by
`northern_hemisphere_seasons.get(month_num, "Unknown")`. -/
def seasonLookup (month : String) : String :=
  let month_num := (month_names.lookup (pyLower month)).getD month
  (northern_hemisphere_seasons.lookup month_num).getD "Unknown"

/-- `tools.get_season_info`: the full returned sentence. -/
def get_season_info (destination month : String) : String :=
  "In " ++ destination ++ ", the season in month " ++ month ++ " is typically "
    ++ seasonLookup month
    ++ ". Consider checking current weather forecasts for accurate information."

example : calculate_trip_duration "2024-01-01" "2024-01-10" = "10 days" := by decide
example : calculate_trip_duration "2024-01-10" "2024-01-01" = "-8 days" := by decide
example : calculate_trip_duration "2024-13-01" "2024-01-10"
    = "Invalid date format. Please use YYYY-MM-DD." := by decide
example : calculate_trip_duration "2023-02-29" "2024-01-10"
    = "Invalid date format. Please use YYYY-MM-DD." := by decide
example : calculate_trip_duration "2024-02-29" "2024-03-01" = "2 days" := by decide
example : seasonLookup "July" = "Summer" := by decide
example : seasonLookup "7" = "Summer" := by decide
example : seasonLookup "Smarch" = "Unknown" := by decide
example : seasonLookup "07" = "Unknown" := by decide

/-! ## Conversation turns, LLM responses and the tool registry

The LLM invocation service is an external boundary.  The tool-using
nodes call `llm.invoke` repeatedly; the service is modelled as the
sequence of responses it returns, `oracle k` being the response to the
`(k+1)`-st invocation made by the node.  The Tavily web-search tool is
an external collaborator: its behaviour is a parameter
`search : List (String × String) → Except String String`, an
`Except.error` modelling a raised exception. -/

structure ToolCall where
  name : String
  args : List (String × String)
  id : String
deriving Repr, DecidableEq

structure LLMResponse where
  content : String
  tool_calls : List ToolCall
deriving Repr, DecidableEq

inductive Msg where
  | system (content : String)
  | human (content : String)
  | ai (resp : LLMResponse)
  | tool (content : String) (tool_call_id : String)
deriving Repr, DecidableEq

def Msg.isToolMsg : Msg → Bool
  | .tool _ _ => true
  | _ => false

/-- A registered tool: a name plus an invocable capability taking the
structured arguments; `Except.error` models the tool raising. -/
structure RegisteredTool where
  name : String
  invoke : List (String × String) → Except String String

/-- Argument extraction done by the tool wrapper: a missing argument is
a validation error raised by `tool.invoke` (modelled as `Except.error`);
present arguments are passed to the pure Python function. -/
def wrapTwoArg (key1 key2 : String) (f : String → String → String) :
    List (String × String) → Except String String := fun args =>
  match args.lookup key1, args.lookup key2 with
  | some a, some b => .ok (f a b)
  | _, _ => .error "validation error: missing tool argument"

/-- `tools.TRAVEL_TOOLS`: the Tavily search tool (external), the trip
duration calculator and the season lookup. -/
def TRAVEL_TOOLS (search : List (String × String) → Except String String) :
    List RegisteredTool :=
  [⟨"tavily_search_results_json", search⟩,
   ⟨"calculate_trip_duration", wrapTwoArg "start_date" "end_date" calculate_trip_duration⟩,
   ⟨"get_season_info", wrapTwoArg "destination" "month" get_season_info⟩]

/-- `next((t for t in TRAVEL_TOOLS if t.name == tool_name), None)`. -/
def findTool (registry : List RegisteredTool) (name : String) : Option RegisteredTool :=
  registry.find? (fun t => t.name == name)

/-! ## The tool-call resolution loop (`nodes.py`, e.g. lines 183-201)

```
while response.tool_calls:
    tool_messages = []
    for tool_call in response.tool_calls:
        tool = next((t for t in TRAVEL_TOOLS if t.name == tool_call["name"]), None)
        if tool:
            tool_result = tool.invoke(tool_call["args"])
            tool_messages.append({"role": "tool", "content": str(tool_result),
                                  "tool_call_id": tool_call["id"]})
    messages.append(response)
    messages.extend(tool_messages)
    response = llm.invoke(messages)
```

The `for` body: a found tool is invoked (an exception propagates out of
the node); a missing tool appends nothing.  The loop itself is
unbounded, so it is embedded with explicit fuel: `Except.ok none` means
"still looping after `fuel` rounds". -/

def execToolCalls (registry : List RegisteredTool) : List ToolCall → Except String (List Msg)
  | [] => .ok []
  | tc :: rest =>
    match findTool registry tc.name with
    | some t =>
      match t.invoke tc.args with
      | .error e => .error e
      | .ok r =>
        match execToolCalls registry rest with
        | .error e => .error e
        | .ok ms => .ok (Msg.tool r tc.id :: ms)
    | none => execToolCalls registry rest

/-- One run of the `while response.tool_calls` loop.  `k` is the number
of LLM invocations performed so far (the current `resp` was invocation
number `k`, i.e. `resp = oracle (k-1)`). -/
structure LoopResult where
  content : String
  messages : List Msg
  invocations : Nat
deriving Repr, DecidableEq

def toolLoopAux (registry : List RegisteredTool) (oracle : Nat → LLMResponse) :
    Nat → Nat → List Msg → LLMResponse → Except String (Option LoopResult)
  | 0, k, msgs, resp =>
    if resp.tool_calls = [] then .ok (some ⟨resp.content, msgs, k⟩) else .ok none
  | fuel + 1, k, msgs, resp =>
    if resp.tool_calls = [] then .ok (some ⟨resp.content, msgs, k⟩)
    else
      match execToolCalls registry resp.tool_calls with
      | .error e => .error e
      | .ok tool_messages =>
        toolLoopAux registry oracle fuel (k + 1)
          (msgs ++ Msg.ai resp :: tool_messages) (oracle k)

/-- `response = llm.invoke(messages)` followed by the
`while response.tool_calls` loop. -/
def runToolLoop (registry : List RegisteredTool) (oracle : Nat → LLMResponse)
    (initMsgs : List Msg) (fuel : Nat) : Except String (Option LoopResult) :=
  toolLoopAux registry oracle fuel 1 initMsgs (oracle 0)

/-! ## The state record (`src/travel_agent/state.py`)

`TravelAgentState` is a `TypedDict`; all runs of the graph carry every
field (absent string fields read through `state.get(key, "")` behave as
`""`), so it is embedded as a total structure. -/

structure TravelAgentState where
  messages : List Msg
  user_id : String
  source : String
  destination : String
  start_date : String
  end_date : String
  preferences : String
  hobbies : String
  saved_preferences : String
  destination_info : String
  itinerary : String
  accommodations : String
  activities : String
  final_plan : String
deriving Repr, DecidableEq

/-! ## Prompt construction (`src/travel_agent/nodes.py`) -/

def researchSystemPrompt : String :=
  "You are a travel research specialist. Research the destination thoroughly and provide:\n1. Overview of the destination\n2. Best attractions and landmarks\n3. Local culture and customs\n4. Transportation options\n5. Weather and best time to visit\n6. Safety considerations\n\nUse the search tool to find current and accurate information."

def researchUserPrompt (st : TravelAgentState) : String :=
  "Research " ++ st.destination ++ " for a trip from " ++ st.start_date ++ " to "
    ++ st.end_date ++ ".\nThe traveler is coming from " ++ st.source
    ++ ".\nTheir interests include: " ++ st.hobbies ++ "\nTheir preferences: "
    ++ st.preferences ++ "\n\nProvide comprehensive destination information."

def planSystemPrompt : String :=
  "You are an expert travel itinerary planner. Create a detailed day-by-day itinerary that:\n1. Balances activities with rest time\n2. Groups nearby attractions logically\n3. Considers travel time between locations\n4. Matches the traveler's interests and preferences\n5. Includes specific timing suggestions\n6. Accounts for meal times and local dining options"

def planUserPrompt (st : TravelAgentState) : String :=
  "Create a day-by-day itinerary for:\n- Destination: " ++ st.destination
    ++ "\n- Dates: " ++ st.start_date ++ " to " ++ st.end_date
    ++ "\n- Traveler interests: " ++ st.hobbies ++ "\n- Preferences: " ++ st.preferences
    ++ "\n\nDestination information:\n" ++ st.destination_info
    ++ "\n\nProvide a detailed daily schedule."

def accommodationsSystemPrompt : String :=
  "You are a hotel and accommodation specialist. Suggest accommodations that:\n1. Match the traveler's budget and preferences\n2. Are well-located for the planned itinerary\n3. Have good reviews and ratings\n4. Offer relevant amenities\n5. Consider different accommodation types (hotels, hostels, vacation rentals, etc.)\n\nUse the search tool to find current options and prices."

def accommodationsUserPrompt (st : TravelAgentState) : String :=
  "Suggest accommodations in " ++ st.destination ++ " for:\n- Dates: "
    ++ st.start_date ++ " to " ++ st.end_date ++ "\n- Preferences: " ++ st.preferences
    ++ "\n- Itinerary focus areas: See the itinerary below\n\nItinerary:\n"
    ++ st.itinerary ++ "\n\nProvide 3-5 accommodation recommendations with pros and cons."

def activitiesSystemPrompt : String :=
  "You are an activity and experience curator. Recommend activities that:\n1. Align with the traveler's hobbies and interests\n2. Are unique to the destination\n3. Fit within the itinerary timeframe\n4. Offer a mix of popular and off-beaten-path experiences\n5. Include booking information and tips\n\nUse the search tool to find current activities, tours, and experiences."

def activitiesUserPrompt (st : TravelAgentState) : String :=
  "Recommend activities in " ++ st.destination ++ " for someone interested in: "
    ++ st.hobbies ++ "\n- Travel dates: " ++ st.start_date ++ " to " ++ st.end_date
    ++ "\n- Preferences: " ++ st.preferences ++ "\n\nExisting itinerary:\n"
    ++ st.itinerary ++ "\n\nSuggest specific activities, tours, or experiences they shouldn't miss."

def compileSystemPrompt : String :=
  "You are a travel plan compiler. Create a comprehensive, well-organized travel plan that:\n1. Combines all research, itinerary, accommodations, and activities\n2. Presents information in a clear, easy-to-follow format\n3. Includes practical tips and reminders\n4. Adds any final recommendations\n5. Formats the plan beautifully with sections and subsections"

def compileUserPrompt (st : TravelAgentState) : String :=
  "Compile a final comprehensive travel plan using all the information below:\n\nDESTINATION RESEARCH:\n"
    ++ st.destination_info ++ "\n\nDAILY ITINERARY:\n" ++ st.itinerary
    ++ "\n\nACCOMMODATIONS:\n" ++ st.accommodations ++ "\n\nRECOMMENDED ACTIVITIES:\n"
    ++ st.activities ++ "\n\nCreate a polished, complete travel guide for a trip from "
    ++ st.source ++ " to " ++ st.destination ++ "\nfrom " ++ st.start_date ++ " to "
    ++ st.end_date ++ "."

def researchMessages (st : TravelAgentState) : List Msg :=
  [Msg.system researchSystemPrompt, Msg.human (researchUserPrompt st)]

def planMessages (st : TravelAgentState) : List Msg :=
  [Msg.system planSystemPrompt, Msg.human (planUserPrompt st)]

def accommodationsMessages (st : TravelAgentState) : List Msg :=
  [Msg.system accommodationsSystemPrompt, Msg.human (accommodationsUserPrompt st)]

def activitiesMessages (st : TravelAgentState) : List Msg :=
  [Msg.system activitiesSystemPrompt, Msg.human (activitiesUserPrompt st)]

def compileMessages (st : TravelAgentState) : List Msg :=
  [Msg.system compileSystemPrompt, Msg.human (compileUserPrompt st)]

/-! ## Content nodes (`src/travel_agent/nodes.py`)

Tool-using nodes (`research_destination_node`,
`suggest_accommodations_node`, `recommend_activities_node`) run the
resolution loop; a result of `Except.ok none` means the unbounded while
loop has not finished within `fuel` rounds, and `Except.error` models a
tool exception escaping the node.  The plain nodes
(`plan_itinerary_node`, `compile_final_plan_node`) perform one LLM
invocation, modelled as `llm : List Msg → LLMResponse`. -/

def research_destination_node
    (search : List (String × String) → Except String String)
    (oracle : Nat → LLMResponse) (fuel : Nat)
    (st : TravelAgentState) : Except String (Option TravelAgentState) :=
  match runToolLoop (TRAVEL_TOOLS search) oracle (researchMessages st) fuel with
  | .error e => .error e
  | .ok none => .ok none
  | .ok (some r) => .ok (some { st with destination_info := r.content })

def plan_itinerary_node (llm : List Msg → LLMResponse)
    (st : TravelAgentState) : TravelAgentState :=
  { st with itinerary := (llm (planMessages st)).content }

def suggest_accommodations_node
    (search : List (String × String) → Except String String)
    (oracle : Nat → LLMResponse) (fuel : Nat)
    (st : TravelAgentState) : Except String (Option TravelAgentState) :=
  match runToolLoop (TRAVEL_TOOLS search) oracle (accommodationsMessages st) fuel with
  | .error e => .error e
  | .ok none => .ok none
  | .ok (some r) => .ok (some { st with accommodations := r.content })

def recommend_activities_node
    (search : List (String × String) → Except String String)
    (oracle : Nat → LLMResponse) (fuel : Nat)
    (st : TravelAgentState) : Except String (Option TravelAgentState) :=
  match runToolLoop (TRAVEL_TOOLS search) oracle (activitiesMessages st) fuel with
  | .error e => .error e
  | .ok none => .ok none
  | .ok (some r) => .ok (some { st with activities := r.content })

def compile_final_plan_node (llm : List Msg → LLMResponse)
    (st : TravelAgentState) : TravelAgentState :=
  let content := (llm (compileMessages st)).content
  { st with final_plan := content,
            messages := st.messages ++ [Msg.human content] }

/-- `validate_input_node`: the confirmation message appended to
`messages` (f-string of lines 131-140; `saved_prefs_msg` is prefixed by
a newline only when `saved_preferences` is non-empty). -/
def validationMessage (st : TravelAgentState) : String :=
  let saved_prefs_msg := if st.saved_preferences ≠ "" then "\n" ++ st.saved_preferences else ""
  "\nTravel Details Received:\n- Source: " ++ st.source ++ "\n- Destination: "
    ++ st.destination ++ "\n- Dates: " ++ st.start_date ++ " to " ++ st.end_date
    ++ "\n- Preferences: " ++ st.preferences ++ "\n- Hobbies/Interests: " ++ st.hobbies
    ++ saved_prefs_msg ++ "\n\nI'll now create a personalized travel plan for you!\n"

def validate_input_node (st : TravelAgentState) : TravelAgentState :=
  { st with messages := st.messages ++ [Msg.human (validationMessage st)] }

/-! ## Preference store (`load_user_preferences_node`, `save_user_preferences_node`)

The stored value under namespace `("user_preferences", user_id)`, key
`"preferences"`, is the dict written by the save node: it always has
the three keys, so it is embedded as a total record.  The backend is
abstracted as `search : String → Except String (List PreferenceRecord)`
(the values of `store.search(namespace)` in order; `Except.error`
models the backend raising).  Both nodes wrap their whole body in
`try/except Exception`, printing a non-fatal note on failure, so in the
embedding a backend error never escapes: it only yields the degraded
result.  The save node's only effect is `store.put`; the embedding
returns the record it puts (`none` when no put is issued). -/

structure PreferenceRecord where
  preferences : String
  hobbies : String
  past_destinations : List String
deriving Repr, DecidableEq

/-- Python `str` of a list of strings, as interpolated into the
f-string of `load_user_preferences_node`. -/
def pyStrRepr (s : String) : String := "'" ++ s ++ "'"

def pyListRepr (l : List String) : String :=
  "[" ++ String.intercalate ", " (l.map pyStrRepr) ++ "]"

/-- The `saved_preferences` f-string of `load_user_preferences_node`
(lines 53-58). -/
def formatSavedPrefs (r : PreferenceRecord) : String :=
  "\nPrevious Travel Preferences Found:\n- Preferred Travel Style: " ++ r.preferences
    ++ "\n- Interests/Hobbies: " ++ r.hobbies ++ "\n- Past Destinations: "
    ++ pyListRepr r.past_destinations ++ "\n"

/-- `load_user_preferences_node`: with a non-empty `user_id`, search the
store; the first returned memory (if any) is formatted into
`saved_preferences`; an empty result, an empty `user_id`, or a backend
exception all leave `saved_preferences` as `""`. -/
def load_user_preferences_node
    (search : String → Except String (List PreferenceRecord))
    (st : TravelAgentState) : TravelAgentState :=
  let saved_preferences : String :=
    if st.user_id ≠ "" then
      match search st.user_id with
      | .ok (latest :: _) => formatSavedPrefs latest
      | .ok [] => ""
      | .error _ => ""
    else ""
  { st with saved_preferences := saved_preferences }

/-- `save_user_preferences_node`: with a non-empty `user_id`, load the
existing `past_destinations` (from the first memory found, `[]` if
none), append the current destination when it is non-empty and not
already present, truncate to the last 5 (`past_destinations[-5:]`), and
put the whole record back under the same key.  The state is returned
unchanged; the second component is the record put into the store
(`none` when nothing is written: empty `user_id` or backend
exception). -/
def save_user_preferences_node
    (search : String → Except String (List PreferenceRecord))
    (st : TravelAgentState) : TravelAgentState × Option PreferenceRecord :=
  let put : Option PreferenceRecord :=
    if st.user_id ≠ "" then
      match search st.user_id with
      | .error _ => none
      | .ok memories =>
        let past0 : List String :=
          match memories with
          | latest :: _ => latest.past_destinations
          | [] => []
        let past1 : List String :=
          if st.destination ≠ "" ∧ st.destination ∉ past0 then
            (past0 ++ [st.destination]).drop ((past0.length + 1) - 5)
          else past0
        some ⟨st.preferences, st.hobbies, past1⟩
    else none
  (st, put)

/-! ### The in-memory backend

The drop-in in-memory store used to close the round trip: one record
per user id, `put` overwrites the record under that key, `search`
returns the record for the key (a singleton list) or `[]`. -/

def memSearch (recs : List (String × PreferenceRecord)) :
    String → Except String (List PreferenceRecord) := fun uid =>
  .ok (match recs.lookup uid with
       | some r => [r]
       | none => [])

def memPut (recs : List (String × PreferenceRecord)) (uid : String)
    (r : PreferenceRecord) : List (String × PreferenceRecord) :=
  (uid, r) :: recs.filter (fun p => p.1 ≠ uid)

/-- The store after running the save node against the in-memory
backend. -/
def saveToStore (recs : List (String × PreferenceRecord))
    (st : TravelAgentState) : List (String × PreferenceRecord) :=
  match (save_user_preferences_node (memSearch recs) st).2 with
  | some r => memPut recs st.user_id r
  | none => recs

/-! ## Helper lemmas -/

theorem char_toNat_ofNat_of_lt {n : Nat} (h : n < 55296) : (Char.ofNat n).toNat = n := by
  unfold Char.ofNat
  rw [dif_pos (Or.inl h)]
  rfl

theorem char_toLower_toLower (c : Char) : c.toLower.toLower = c.toLower := by
  unfold Char.toLower
  by_cases hc : c.toNat ≥ 65 ∧ c.toNat ≤ 90
  · rw [if_pos hc]
    have ht : (Char.ofNat (c.toNat + 32)).toNat = c.toNat + 32 :=
      char_toNat_ofNat_of_lt (by omega)
    rw [if_neg]
    rw [ht]
    omega
  · rw [if_neg hc, if_neg hc]

theorem char_toLower_eq_of_lt {c d : Char} (hd : d.toNat < 97) (h : c.toLower = d) :
    c = d := by
  unfold Char.toLower at h
  by_cases hc : c.toNat ≥ 65 ∧ c.toNat ≤ 90
  · rw [if_pos hc] at h
    have ht : (Char.ofNat (c.toNat + 32)).toNat = c.toNat + 32 :=
      char_toNat_ofNat_of_lt (by omega)
    rw [h] at ht
    omega
  · rwa [if_neg hc] at h

theorem list_map_toLower_eq {l l' : List Char} (hk : ∀ c ∈ l', c.toNat < 97)
    (h : l.map Char.toLower = l') : l = l' := by
  induction l generalizing l' with
  | nil => simpa using h
  | cons c cs ih =>
    subst h
    have h1 : c = c.toLower :=
      char_toLower_eq_of_lt (hk c.toLower (by simp)) rfl
    have h2 : cs = cs.map Char.toLower :=
      ih (fun x hx => hk x (by simp [hx])) rfl
    rw [List.map_cons, ← h1, ← h2]

theorem pyLower_idem (s : String) : pyLower (pyLower s) = pyLower s := by
  unfold pyLower
  apply congrArg String.mk
  rw [List.map_map]
  exact List.map_congr_left (fun a _ => char_toLower_toLower a)

theorem pyLower_eq_of_lowfree {m k : String} (hk : ∀ c ∈ k.data, c.toNat < 97)
    (h : pyLower m = k) : m = k := by
  have hd : m.data.map Char.toLower = k.data := by
    have := congrArg String.data h
    simpa [pyLower] using this
  cases m with
  | mk md =>
    cases k with
    | mk kd =>
      exact congrArg String.mk (list_map_toLower_eq hk hd)

theorem lookup_some_mem_keys {β : Type} {l : List (String × β)} {k : String} {v : β}
    (h : l.lookup k = some v) : k ∈ l.map Prod.fst := by
  induction l with
  | nil => simp [List.lookup] at h
  | cons p rest ih =>
    rw [List.lookup_cons] at h
    by_cases he : k == p.1
    · simp only [List.map_cons, List.mem_cons]
      exact Or.inl (eq_of_beq he)
    · rw [Bool.not_eq_true] at he
      rw [he] at h
      simp only [List.map_cons, List.mem_cons]
      exact Or.inr (ih h)

theorem seasons_keys_lowfree :
    ∀ p ∈ northern_hemisphere_seasons, ∀ c ∈ p.1.data, c.toNat < 97 := by decide

theorem season_lookup_lower_eq (m : String) (hm : ¬ pyLower m = m) :
    northern_hemisphere_seasons.lookup m = none
    ∧ northern_hemisphere_seasons.lookup (pyLower m) = none := by
  constructor
  · cases h : northern_hemisphere_seasons.lookup m with
    | none => rfl
    | some v =>
      exfalso
      have hmem := lookup_some_mem_keys h
      simp only [northern_hemisphere_seasons, List.map_cons, List.map_nil,
        List.mem_cons, List.not_mem_nil, or_false] at hmem
      rcases hmem with h | h | h | h | h | h | h | h | h | h | h | h <;>
        subst h <;> exact hm (by decide)
  · cases h : northern_hemisphere_seasons.lookup (pyLower m) with
    | none => rfl
    | some v =>
      exfalso
      have hmem := lookup_some_mem_keys h
      simp only [northern_hemisphere_seasons, List.map_cons, List.map_nil,
        List.mem_cons, List.not_mem_nil, or_false] at hmem
      rcases hmem with h | h | h | h | h | h | h | h | h | h | h | h <;>
        exact hm (by rw [pyLower_eq_of_lowfree (by decide) h]; decide)

theorem seasonLookup_pyLower (m : String) : seasonLookup m = seasonLookup (pyLower m) := by
  simp only [seasonLookup, pyLower_idem]
  cases h : month_names.lookup (pyLower m) with
  | some v => rfl
  | none =>
    simp only [Option.getD_none]
    by_cases hm : pyLower m = m
    · rw [hm]
    · obtain ⟨h1, h2⟩ := season_lookup_lower_eq m hm
      rw [h1, h2]

/-! ## Claims about the deterministic tools -/

/-- Claim C8: `calculate_trip_duration` returns the inclusive day count
between its two `YYYY-MM-DD` arguments (`"2024-01-01"`, `"2024-01-10"`
gives `"10 days"`); on unparsable input it returns the explicit invalid
date text (it is a total function, so it never raises); when the end
date precedes the start date it returns the well-defined negative count
(`"-8 days"`). -/
theorem c8_trip_duration :
    calculate_trip_duration "2024-01-01" "2024-01-10" = "10 days"
  ∧ calculate_trip_duration "2024-01-10" "2024-01-01" = "-8 days"
  ∧ (∀ s e ds de, parseDate s = some ds → parseDate e = some de →
      calculate_trip_duration s e
        = toString (daysFromCivil de - daysFromCivil ds + 1) ++ " days")
  ∧ (∀ s e, parseDate s = none ∨ parseDate e = none →
      calculate_trip_duration s e = "Invalid date format. Please use YYYY-MM-DD.") := by
  refine ⟨by decide, by decide, ?_, ?_⟩
  · intro s e ds de hs he
    unfold calculate_trip_duration
    rw [hs, he]
  · intro s e h
    unfold calculate_trip_duration
    rcases h with h | h
    · rw [h]
    · rw [h]
      cases parseDate s <;> rfl

/-- Witness for C8: the hypothesis-bearing conjunct at a concrete
unparsable input. -/
theorem c8_witness :
    calculate_trip_duration "not-a-date" "2024-01-10"
      = "Invalid date format. Please use YYYY-MM-DD." :=
  c8_trip_duration.2.2.2 "not-a-date" "2024-01-10" (Or.inl (by decide))

/-- Claim C9: `get_season_info` is a pure table lookup mapping the month
argument, case-insensitively as a month name or as a numeric month, to
the Northern-Hemisphere season, with `"Unknown"` for unrecognized
input: `"July"` and `"7"` both give Summer, `"Smarch"` gives Unknown,
and the result is invariant under lower-casing the month. -/
theorem c9_season_table :
    seasonLookup "July" = "Summer"
  ∧ seasonLookup "7" = "Summer"
  ∧ seasonLookup "Smarch" = "Unknown"
  ∧ get_season_info "Paris" "July"
      = "In Paris, the season in month July is typically Summer. Consider checking current weather forecasts for accurate information."
  ∧ get_season_info "Paris" "7"
      = "In Paris, the season in month 7 is typically Summer. Consider checking current weather forecasts for accurate information."
  ∧ (∀ m, seasonLookup m = seasonLookup (pyLower m))
  ∧ (∀ d m, get_season_info d m
      = "In " ++ d ++ ", the season in month " ++ m ++ " is typically "
        ++ seasonLookup m
        ++ ". Consider checking current weather forecasts for accurate information.") :=
  ⟨by decide, by decide, by decide, by decide, by decide,
   seasonLookup_pyLower, fun _ _ => rfl⟩

/-- Claim C10: a numeric month is recognized only as the exact unpadded
strings `"1"`..`"12"`: the zero-padded `"07"` gives Unknown, any month
whose lower-casing is not a full month name and which is not itself a
table key gives Unknown, and conversely any non-Unknown result comes
from one of those two exact key sets. -/
theorem c10_padded_month_unknown :
    seasonLookup "07" = "Unknown"
  ∧ get_season_info "Paris" "07"
      = "In Paris, the season in month 07 is typically Unknown. Consider checking current weather forecasts for accurate information."
  ∧ (∀ m, month_names.lookup (pyLower m) = none →
      northern_hemisphere_seasons.lookup m = none → seasonLookup m = "Unknown")
  ∧ (∀ m, seasonLookup m ≠ "Unknown" →
      pyLower m ∈ month_names.map Prod.fst
      ∨ m ∈ northern_hemisphere_seasons.map Prod.fst) := by
  refine ⟨by decide, by decide, ?_, ?_⟩
  · intro m h1 h2
    simp only [seasonLookup, h1, Option.getD_none, h2]
    try rfl
  · intro m h
    simp only [seasonLookup] at h
    cases hn : month_names.lookup (pyLower m) with
    | some v => exact Or.inl (lookup_some_mem_keys hn)
    | none =>
      rw [hn] at h
      simp only [Option.getD_none] at h
      cases hs : northern_hemisphere_seasons.lookup m with
      | some v => exact Or.inr (lookup_some_mem_keys hs)
      | none =>
        rw [hs] at h
        simp at h

/-- Witness for C10: the hypothesis-bearing conjunct at a concrete
unrecognized input. -/
theorem c10_witness : seasonLookup "Banana" = "Unknown" :=
  c10_padded_month_unknown.2.2.1 "Banana" (by decide) (by decide)

/-! ## Concrete fixtures used by witnesses and counterexamples -/

/-- A stub for the external Tavily search collaborator that always
succeeds. -/
def exSearch : List (String × String) → Except String String :=
  fun _ => .ok "stubbed search results"

/-- A search collaborator whose backend raises (network failure). -/
def exFailSearch : List (String × String) → Except String String :=
  fun _ => .error "ConnectionError: network unreachable"

def exState : TravelAgentState :=
  { messages := [], user_id := "u1", source := "New York", destination := "Paris",
    start_date := "2024-01-01", end_date := "2024-01-10",
    preferences := "budget travel", hobbies := "art and museums",
    saved_preferences := "", destination_info := "", itinerary := "",
    accommodations := "", activities := "", final_plan := "" }

def exSeasonCall : ToolCall :=
  ⟨"get_season_info", [("destination", "Paris"), ("month", "July")], "call_1"⟩

/-- An LLM service that requests a (registered, successfully executing)
tool call in every round. -/
def alwaysToolsOracle : Nat → LLMResponse := fun _ => ⟨"", [exSeasonCall]⟩

/-- An LLM service whose first response requests a tool that is not in
the registry, then answers. -/
def exUnknownOracle : Nat → LLMResponse := fun n =>
  if n = 0 then ⟨"", [⟨"get_weather", [("city", "Paris")], "call_7"⟩]⟩
  else ⟨"final answer", []⟩

/-- An LLM service whose first response requests the web-search tool,
then answers. -/
def exSearchOracle : Nat → LLMResponse := fun n =>
  if n = 0 then ⟨"", [⟨"tavily_search_results_json", [("query", "Paris")], "call_2"⟩]⟩
  else ⟨"search-based answer", []⟩

/-- An LLM service that requests one trip-duration tool call and then
answers (N = 1 in the sense of C5). -/
def exToolOracle : Nat → LLMResponse := fun n =>
  if n = 0 then
    ⟨"", [⟨"calculate_trip_duration",
          [("start_date", "2024-01-01"), ("end_date", "2024-01-10")], "call_3"⟩]⟩
  else ⟨"Paris is lovely", []⟩

/-- A single-shot LLM service for the non-tool nodes. -/
def exLLM : List Msg → LLMResponse := fun _ => ⟨"generated plan text", []⟩

/-- The loop never returns within any amount of fuel — the shape of a
non-terminating run of the unbounded `while` loop. -/
def NeverReturns (registry : List RegisteredTool) (oracle : Nat → LLMResponse)
    (initMsgs : List Msg) : Prop :=
  ∀ fuel, runToolLoop registry oracle initMsgs fuel = .ok none

/-! ## Loop lemmas -/

theorem toolLoopAux_always_tools (registry : List RegisteredTool)
    (oracle : Nat → LLMResponse) :
    ∀ (fuel j : Nat) (msgs : List Msg),
      (∀ i, (oracle i).tool_calls ≠ []) →
      (∀ i, ∃ tms, execToolCalls registry (oracle i).tool_calls = .ok tms) →
      toolLoopAux registry oracle fuel (j + 1) msgs (oracle j) = .ok none := by
  intro fuel
  induction fuel with
  | zero =>
    intro j msgs hcalls _
    simp only [toolLoopAux]
    rw [if_neg (hcalls j)]
  | succ f ih =>
    intro j msgs hcalls hexec
    obtain ⟨tms, htms⟩ := hexec j
    simp only [toolLoopAux]
    rw [if_neg (hcalls j), htms]
    exact ih (j + 1) _ hcalls hexec

theorem toolLoopAux_rounds (registry : List RegisteredTool)
    (oracle : Nat → LLMResponse) :
    ∀ (N fuel j : Nat) (msgs : List Msg),
      (∀ i, i < N → (oracle (j + i)).tool_calls ≠ []) →
      (∀ i, i < N → ∃ tms, execToolCalls registry (oracle (j + i)).tool_calls = .ok tms) →
      (oracle (j + N)).tool_calls = [] →
      N ≤ fuel →
      ∃ ms, toolLoopAux registry oracle fuel (j + 1) msgs (oracle j)
              = .ok (some ⟨(oracle (j + N)).content, ms, j + N + 1⟩) := by
  intro N
  induction N with
  | zero =>
    intro fuel j msgs _ _ hstop _
    refine ⟨msgs, ?_⟩
    cases fuel <;> simp only [toolLoopAux] <;> rw [if_pos (by simpa using hstop)] <;> simp
  | succ N ih =>
    intro fuel j msgs hcalls hexec hstop hfuel
    cases fuel with
    | zero => omega
    | succ f =>
      have h0 : (oracle j).tool_calls ≠ [] := by simpa using hcalls 0 (by omega)
      obtain ⟨tms, htms⟩ := by simpa using hexec 0 (by omega)
      have hsh : ∀ i : Nat, j + 1 + i = j + (i + 1) := by omega
      obtain ⟨ms, hms⟩ := ih f (j + 1) (msgs ++ Msg.ai (oracle j) :: tms)
        (fun i hi => by rw [hsh i]; exact hcalls (i + 1) (by omega))
        (fun i hi => by rw [hsh i]; exact hexec (i + 1) (by omega))
        (by rw [hsh N]; exact hstop) (by omega)
      refine ⟨ms, ?_⟩
      simp only [toolLoopAux]
      rw [if_neg h0, htms]
      rw [hsh N] at hms
      exact hms

theorem toolLoopAux_content (registry : List RegisteredTool)
    (oracle : Nat → LLMResponse) :
    ∀ (fuel k : Nat) (msgs : List Msg) (resp : LLMResponse) (r : LoopResult),
      toolLoopAux registry oracle fuel k msgs resp = .ok (some r) →
      r.content = resp.content ∨ ∃ i, r.content = (oracle i).content := by
  intro fuel
  induction fuel with
  | zero =>
    intro k msgs resp r h
    simp only [toolLoopAux] at h
    by_cases hc : resp.tool_calls = []
    · rw [if_pos hc] at h
      simp only [Except.ok.injEq, Option.some.injEq] at h
      exact Or.inl (by rw [← h])
    · rw [if_neg hc] at h
      simp at h
  | succ f ih =>
    intro k msgs resp r h
    simp only [toolLoopAux] at h
    by_cases hc : resp.tool_calls = []
    · rw [if_pos hc] at h
      simp only [Except.ok.injEq, Option.some.injEq] at h
      exact Or.inl (by rw [← h])
    · rw [if_neg hc] at h
      cases hex : execToolCalls registry resp.tool_calls with
      | error e => rw [hex] at h; simp at h
      | ok tms =>
        rw [hex] at h
        rcases ih (k + 1) _ (oracle k) r h with h1 | ⟨i, hi⟩
        · exact Or.inr ⟨k, h1⟩
        · exact Or.inr ⟨i, hi⟩

theorem runToolLoop_content {registry : List RegisteredTool}
    {oracle : Nat → LLMResponse} {initMsgs : List Msg} {fuel : Nat} {r : LoopResult}
    (h : runToolLoop registry oracle initMsgs fuel = .ok (some r)) :
    ∃ i, r.content = (oracle i).content := by
  rcases toolLoopAux_content registry oracle fuel 1 initMsgs (oracle 0) r h with h1 | h1
  · exact ⟨0, h1⟩
  · exact h1

theorem research_node_ok {search : List (String × String) → Except String String}
    {oracle : Nat → LLMResponse} {fuel : Nat} {st st' : TravelAgentState}
    (h : research_destination_node search oracle fuel st = .ok (some st')) :
    ∃ r, runToolLoop (TRAVEL_TOOLS search) oracle (researchMessages st) fuel = .ok (some r)
      ∧ st' = { st with destination_info := r.content } := by
  unfold research_destination_node at h
  cases hr : runToolLoop (TRAVEL_TOOLS search) oracle (researchMessages st) fuel with
  | error e => rw [hr] at h; simp at h
  | ok o =>
    cases o with
    | none => rw [hr] at h; simp at h
    | some r =>
      rw [hr] at h
      simp only [Except.ok.injEq, Option.some.injEq] at h
      exact ⟨r, rfl, h.symm⟩

theorem accommodations_node_ok {search : List (String × String) → Except String String}
    {oracle : Nat → LLMResponse} {fuel : Nat} {st st' : TravelAgentState}
    (h : suggest_accommodations_node search oracle fuel st = .ok (some st')) :
    ∃ r, runToolLoop (TRAVEL_TOOLS search) oracle (accommodationsMessages st) fuel = .ok (some r)
      ∧ st' = { st with accommodations := r.content } := by
  unfold suggest_accommodations_node at h
  cases hr : runToolLoop (TRAVEL_TOOLS search) oracle (accommodationsMessages st) fuel with
  | error e => rw [hr] at h; simp at h
  | ok o =>
    cases o with
    | none => rw [hr] at h; simp at h
    | some r =>
      rw [hr] at h
      simp only [Except.ok.injEq, Option.some.injEq] at h
      exact ⟨r, rfl, h.symm⟩

theorem activities_node_ok {search : List (String × String) → Except String String}
    {oracle : Nat → LLMResponse} {fuel : Nat} {st st' : TravelAgentState}
    (h : recommend_activities_node search oracle fuel st = .ok (some st')) :
    ∃ r, runToolLoop (TRAVEL_TOOLS search) oracle (activitiesMessages st) fuel = .ok (some r)
      ∧ st' = { st with activities := r.content } := by
  unfold recommend_activities_node at h
  cases hr : runToolLoop (TRAVEL_TOOLS search) oracle (activitiesMessages st) fuel with
  | error e => rw [hr] at h; simp at h
  | ok o =>
    cases o with
    | none => rw [hr] at h; simp at h
    | some r =>
      rw [hr] at h
      simp only [Except.ok.injEq, Option.some.injEq] at h
      exact ⟨r, rfl, h.symm⟩

/-! ## Claims about the tool-call resolution loop -/

/-- Counterexample to C1: the loop of `research_destination_node` has no
round cap at all.  Against an LLM service that requests a
(successfully executing) registered tool call in every round, the loop
never returns, for any number of rounds — in particular it does not
fail with a distinguishable "tool loop exceeded" error after a
configured maximum. -/
theorem c1_counterexample :
    NeverReturns (TRAVEL_TOOLS exSearch) alwaysToolsOracle (researchMessages exState) := by
  intro fuel
  have h := toolLoopAux_always_tools (TRAVEL_TOOLS exSearch) alwaysToolsOracle fuel 0
    (researchMessages exState)
    (fun i => by simp [alwaysToolsOracle])
    (fun i => ⟨[Msg.tool (get_season_info "Paris" "July") "call_1"], rfl⟩)
  simpa using h

/-- Claim C1 amended: the tool-call resolution loop imposes no bounded
maximum number of LLM rounds and has no "tool loop exceeded" error; it
terminates only when the LLM returns a response with zero tool calls.
For every LLM service that requests successfully-executing tool calls
in every round, the step never returns, whatever bound is imposed from
outside. -/
theorem c1_amended_no_round_cap :
    ∀ (search : List (String × String) → Except String String)
      (oracle : Nat → LLMResponse) (fuel : Nat) (st : TravelAgentState),
      (∀ i, (oracle i).tool_calls ≠ []) →
      (∀ i, ∃ tms, execToolCalls (TRAVEL_TOOLS search) (oracle i).tool_calls = .ok tms) →
      research_destination_node search oracle fuel st = .ok none := by
  intro search oracle fuel st hcalls hexec
  have h := toolLoopAux_always_tools (TRAVEL_TOOLS search) oracle fuel 0
    (researchMessages st) hcalls hexec
  simp only [Nat.zero_add] at h
  unfold research_destination_node runToolLoop
  rw [h]

/-- Witness for the amended C1 at a concrete always-requesting oracle. -/
theorem c1_amended_witness :
    research_destination_node exSearch alwaysToolsOracle 7 exState = .ok none :=
  c1_amended_no_round_cap exSearch alwaysToolsOracle 7 exState
    (fun i => by simp [alwaysToolsOracle])
    (fun i => ⟨[Msg.tool (get_season_info "Paris" "July") "call_1"], rfl⟩)

/-- Counterexample to C2: when the LLM requests a tool name that is not
in the registry (`"get_weather"`), the loop produces NO tool-result
turn at all for it — the final conversation contains only the
assistant turn, no turn whose content signals "tool not found". -/
theorem c2_counterexample :
    runToolLoop (TRAVEL_TOOLS exSearch) exUnknownOracle (researchMessages exState) 5
      = .ok (some ⟨"final answer",
          researchMessages exState ++ [Msg.ai (exUnknownOracle 0)], 2⟩)
    ∧ (researchMessages exState ++ [Msg.ai (exUnknownOracle 0)]).filter Msg.isToolMsg
        = [] :=
  ⟨rfl, rfl⟩

/-- Claim C2 amended: a tool-call request naming a tool not in the
registry does not crash the loop, but no tool-result turn is produced
for it either: the request is silently dropped, and a round whose
requests are all unknown appends only the assistant turn before
re-invoking the LLM. -/
theorem c2_amended_unknown_tool_dropped :
    (∀ (registry : List RegisteredTool) (tcs : List ToolCall),
      (∀ tc ∈ tcs, findTool registry tc.name = none) →
      execToolCalls registry tcs = .ok [])
  ∧ (∀ (registry : List RegisteredTool) (oracle : Nat → LLMResponse)
       (fuel k : Nat) (msgs : List Msg) (resp : LLMResponse),
      resp.tool_calls ≠ [] →
      (∀ tc ∈ resp.tool_calls, findTool registry tc.name = none) →
      toolLoopAux registry oracle (fuel + 1) k msgs resp
        = toolLoopAux registry oracle fuel (k + 1) (msgs ++ [Msg.ai resp]) (oracle k)) := by
  have hexec : ∀ (registry : List RegisteredTool) (tcs : List ToolCall),
      (∀ tc ∈ tcs, findTool registry tc.name = none) →
      execToolCalls registry tcs = .ok [] := by
    intro registry tcs h
    induction tcs with
    | nil => rfl
    | cons tc rest ih =>
      unfold execToolCalls
      rw [h tc (by simp)]
      exact ih (fun x hx => h x (by simp [hx]))
  refine ⟨hexec, ?_⟩
  intro registry oracle fuel k msgs resp hne hunknown
  simp only [toolLoopAux]
  rw [if_neg hne, hexec registry resp.tool_calls hunknown]

/-- Witness for the amended C2: the unknown-tool round of
`exUnknownOracle` appends only the assistant turn and continues. -/
theorem c2_amended_witness :
    toolLoopAux (TRAVEL_TOOLS exSearch) exUnknownOracle 3 1
        (researchMessages exState) (exUnknownOracle 0)
      = toolLoopAux (TRAVEL_TOOLS exSearch) exUnknownOracle 2 2
          (researchMessages exState ++ [Msg.ai (exUnknownOracle 0)]) (exUnknownOracle 1) :=
  c2_amended_unknown_tool_dropped.2 (TRAVEL_TOOLS exSearch) exUnknownOracle 2 1
    (researchMessages exState) (exUnknownOracle 0) (by decide)
    (fun tc htc => by
      have h : tc = ⟨"get_weather", [("city", "Paris")], "call_7"⟩ := by
        simpa [exUnknownOracle] using htc
      subst h
      rfl)

/-- Counterexample to C3: when an invoked tool raises (here the
web-search collaborator fails with a network error), the error is NOT
caught per-call: it propagates out of the loop and out of the whole
step, instead of being converted into a textual tool-result turn. -/
theorem c3_counterexample :
    research_destination_node exFailSearch exSearchOracle 5 exState
      = .error "ConnectionError: network unreachable" := rfl

/-- Claim C3 amended: a tool invocation error is not caught per-call:
if executing the requested tool calls of a round raises, the loop
aborts with that error, which propagates out of the step; the loop does
not continue to the next LLM round. -/
theorem c3_amended_error_propagates :
    (∀ (registry : List RegisteredTool) (oracle : Nat → LLMResponse)
       (fuel k : Nat) (msgs : List Msg) (resp : LLMResponse) (e : String),
      resp.tool_calls ≠ [] →
      execToolCalls registry resp.tool_calls = .error e →
      toolLoopAux registry oracle (fuel + 1) k msgs resp = .error e)
  ∧ (∀ (search : List (String × String) → Except String String)
       (oracle : Nat → LLMResponse) (fuel : Nat) (st : TravelAgentState) (e : String),
      (oracle 0).tool_calls ≠ [] →
      execToolCalls (TRAVEL_TOOLS search) (oracle 0).tool_calls = .error e →
      research_destination_node search oracle (fuel + 1) st = .error e) := by
  have h1 : ∀ (registry : List RegisteredTool) (oracle : Nat → LLMResponse)
      (fuel k : Nat) (msgs : List Msg) (resp : LLMResponse) (e : String),
      resp.tool_calls ≠ [] →
      execToolCalls registry resp.tool_calls = .error e →
      toolLoopAux registry oracle (fuel + 1) k msgs resp = .error e := by
    intro registry oracle fuel k msgs resp e hne hex
    simp only [toolLoopAux]
    rw [if_neg hne, hex]
  refine ⟨h1, ?_⟩
  intro search oracle fuel st e hne hex
  unfold research_destination_node runToolLoop
  rw [h1 (TRAVEL_TOOLS search) oracle fuel 1 (researchMessages st) (oracle 0) e hne hex]

/-- Witness for the amended C3 at the concrete failing search
collaborator. -/
theorem c3_amended_witness :
    research_destination_node exFailSearch exSearchOracle 2 exState
      = .error "ConnectionError: network unreachable" :=
  c3_amended_error_propagates.2 exFailSearch exSearchOracle 1 exState
    "ConnectionError: network unreachable" (by decide) rfl

/-- Claim C5: given an LLM service that requests at least one
(successfully executing) tool call in each of its first N responses and
returns a final response with zero tool calls as response N+1, the loop
of `research_destination_node` performs exactly N+1 LLM invocations and
the step's `destination_info` field receives the final text content
unchanged. -/
theorem c5_loop_invocation_count :
    ∀ (search : List (String × String) → Except String String)
      (oracle : Nat → LLMResponse) (N fuel : Nat) (st : TravelAgentState),
      (∀ i, i < N → (oracle i).tool_calls ≠ []) →
      (∀ i, i < N → ∃ tms, execToolCalls (TRAVEL_TOOLS search) (oracle i).tool_calls = .ok tms) →
      (oracle N).tool_calls = [] →
      N < fuel →
      (∃ ms, runToolLoop (TRAVEL_TOOLS search) oracle (researchMessages st) fuel
          = .ok (some ⟨(oracle N).content, ms, N + 1⟩))
      ∧ research_destination_node search oracle fuel st
          = .ok (some { st with destination_info := (oracle N).content }) := by
  intro search oracle N fuel st hcalls hexec hstop hfuel
  obtain ⟨ms, hms⟩ := toolLoopAux_rounds (TRAVEL_TOOLS search) oracle N fuel 0
    (researchMessages st)
    (fun i hi => by simpa using hcalls i hi)
    (fun i hi => by simpa using hexec i hi)
    (by simpa using hstop) (by omega)
  simp only [Nat.zero_add] at hms
  refine ⟨⟨ms, hms⟩, ?_⟩
  unfold research_destination_node runToolLoop
  rw [hms]

/-- Witness for C5 with N = 1: one round of `calculate_trip_duration`,
then the final answer; exactly 2 LLM invocations. -/
theorem c5_witness :
    research_destination_node exSearch exToolOracle 3 exState
      = .ok (some { exState with destination_info := "Paris is lovely" }) :=
  (c5_loop_invocation_count exSearch exToolOracle 1 3 exState
    (fun i hi => by
      have h0 : i = 0 := by omega
      subst h0
      decide)
    (fun i hi => by
      have h0 : i = 0 := by omega
      subst h0
      exact ⟨[Msg.tool "10 days" "call_3"], rfl⟩)
    (by decide) (by omega)).2

/-! ## Claim about step purity / frame preservation -/

/-- Claim C4: each step of the pipeline returns a full state record in
which every field other than the step's own declared output field(s) is
unchanged: `load_user_preferences` writes only `saved_preferences`,
`validate_input` only appends one turn to `messages`,
`research_destination` writes only `destination_info`, `plan_itinerary`
only `itinerary`, `suggest_accommodations` only `accommodations`,
`recommend_activities` only `activities`, `compile_final_plan` writes
`final_plan` and appends one turn to `messages`, and
`save_user_preferences` returns the state unchanged.  The declared
output field of each LLM-content step is populated with the final LLM
content, hence non-empty whenever that content is non-empty. -/
theorem c4_step_frame :
    (∀ search st, load_user_preferences_node search st
        = { st with saved_preferences := (load_user_preferences_node search st).saved_preferences })
  ∧ (∀ st : TravelAgentState, validate_input_node st
        = { st with messages := st.messages ++ [Msg.human (validationMessage st)] })
  ∧ (∀ search oracle fuel (st st' : TravelAgentState),
        research_destination_node search oracle fuel st = .ok (some st') →
        st' = { st with destination_info := st'.destination_info })
  ∧ (∀ llm (st : TravelAgentState), plan_itinerary_node llm st
        = { st with itinerary := (llm (planMessages st)).content })
  ∧ (∀ search oracle fuel (st st' : TravelAgentState),
        suggest_accommodations_node search oracle fuel st = .ok (some st') →
        st' = { st with accommodations := st'.accommodations })
  ∧ (∀ search oracle fuel (st st' : TravelAgentState),
        recommend_activities_node search oracle fuel st = .ok (some st') →
        st' = { st with activities := st'.activities })
  ∧ (∀ llm (st : TravelAgentState), compile_final_plan_node llm st
        = { st with final_plan := (llm (compileMessages st)).content,
                    messages := st.messages ++ [Msg.human ((llm (compileMessages st)).content)] })
  ∧ (∀ search st, (save_user_preferences_node search st).1 = st)
  ∧ (∀ search oracle fuel (st st' : TravelAgentState),
        research_destination_node search oracle fuel st = .ok (some st') →
        (∀ i, (oracle i).content ≠ "") → st'.destination_info ≠ "")
  ∧ (∀ llm (st : TravelAgentState), (llm (planMessages st)).content ≠ "" →
        (plan_itinerary_node llm st).itinerary ≠ "")
  ∧ (∀ llm (st : TravelAgentState), (llm (compileMessages st)).content ≠ "" →
        (compile_final_plan_node llm st).final_plan ≠ "") := by
  refine ⟨fun search st => rfl, fun st => rfl, ?_, fun llm st => rfl, ?_, ?_,
    fun llm st => rfl, fun search st => rfl, ?_, fun llm st h => h, fun llm st h => h⟩
  · intro search oracle fuel st st' h
    obtain ⟨r, _, he⟩ := research_node_ok h
    subst he
    rfl
  · intro search oracle fuel st st' h
    obtain ⟨r, _, he⟩ := accommodations_node_ok h
    subst he
    rfl
  · intro search oracle fuel st st' h
    obtain ⟨r, _, he⟩ := activities_node_ok h
    subst he
    rfl
  · intro search oracle fuel st st' h hc
    obtain ⟨r, hr, he⟩ := research_node_ok h
    obtain ⟨i, hi⟩ := runToolLoop_content hr
    subst he
    show r.content ≠ ""
    rw [hi]
    exact hc i

/-- Witness for C4: the hypothesis-bearing research-step conjuncts at a
concrete terminating run. -/
theorem c4_witness :
    ({ exState with destination_info := "Paris is lovely" } : TravelAgentState)
      = { exState with
          destination_info :=
            ({ exState with destination_info := "Paris is lovely" } : TravelAgentState).destination_info } :=
  c4_step_frame.2.2.1 exSearch exToolOracle 3 exState
    { exState with destination_info := "Paris is lovely" } rfl

/-! ## Claims about the preference store -/

/-- Claim C7: the preference-store steps never propagate a backend
error into the pipeline.  With an empty `user_id` both steps are no-ops
that never consult the store (their result is independent of the
backend); a backend that raises degrades the load to "no saved
preferences" and the save to "no write"; and the save step always
passes the state through unchanged, so the pipeline continues. -/
theorem c7_store_degrades_softly :
    (∀ search (st : TravelAgentState), st.user_id = "" →
      load_user_preferences_node search st = { st with saved_preferences := "" })
  ∧ (∀ s1 s2 (st : TravelAgentState), st.user_id = "" →
      load_user_preferences_node s1 st = load_user_preferences_node s2 st)
  ∧ (∀ search (st : TravelAgentState), st.user_id = "" →
      save_user_preferences_node search st = (st, none))
  ∧ (∀ s1 s2 (st : TravelAgentState), st.user_id = "" →
      save_user_preferences_node s1 st = save_user_preferences_node s2 st)
  ∧ (∀ (e : String) (st : TravelAgentState),
      load_user_preferences_node (fun _ => .error e) st = { st with saved_preferences := "" })
  ∧ (∀ (e : String) (st : TravelAgentState),
      save_user_preferences_node (fun _ => .error e) st = (st, none))
  ∧ (∀ search (st : TravelAgentState), (save_user_preferences_node search st).1 = st) := by
  refine ⟨?_, ?_, ?_, ?_, ?_, ?_, fun search st => rfl⟩
  · intro search st h
    simp [load_user_preferences_node, h]
  · intro s1 s2 st h
    simp [load_user_preferences_node, h]
  · intro search st h
    simp [save_user_preferences_node, h]
  · intro s1 s2 st h
    simp [save_user_preferences_node, h]
  · intro e st
    simp only [load_user_preferences_node]
    split <;> rfl
  · intro e st
    simp only [save_user_preferences_node]
    split <;> rfl

/-- Witness for C7: the failing-backend load at a concrete state. -/
theorem c7_witness :
    load_user_preferences_node (fun _ => .error "backend down")
      { exState with user_id := "" }
      = { exState with user_id := "", saved_preferences := "" } :=
  c7_store_degrades_softly.1 (fun _ => .error "backend down")
    { exState with user_id := "" } rfl

/-- A stored record for the round-trip claims: five past destinations
not containing the current run's destination. -/
def exOld : PreferenceRecord :=
  ⟨"luxury", "food", ["Rome", "Lisbon", "Tokyo", "Oslo", "Cairo"]⟩

def exRecs : List (String × PreferenceRecord) := [("u1", exOld)]

/-- Claim C6: the save step updates (not replaces) the stored record:
it loads the existing `past_destinations` for the user id, appends the
current destination only if not already present, truncates to the most
recent 5 (oldest evicted), and overwrites the whole record under the
same key.  Save followed by load yields a `past_destinations` that is
duplicate-free, at most 5 long, order-preserving (a suffix of the old
list extended by the new destination), and most-recent-last; a 6th
distinct destination evicts the oldest, leaving exactly 5. -/
theorem c6_preference_roundtrip :
    ∀ (recs : List (String × PreferenceRecord)) (st : TravelAgentState)
      (old : PreferenceRecord),
      st.user_id ≠ "" →
      recs.lookup st.user_id = some old →
      old.past_destinations.Nodup →
      old.past_destinations.length ≤ 5 →
      ∃ r : PreferenceRecord,
        (save_user_preferences_node (memSearch recs) st).2 = some r
        ∧ memSearch (saveToStore recs st) st.user_id = .ok [r]
        ∧ r.preferences = st.preferences
        ∧ r.hobbies = st.hobbies
        ∧ r.past_destinations.Nodup
        ∧ r.past_destinations.length ≤ 5
        ∧ ((st.destination = "" ∨ st.destination ∈ old.past_destinations) →
            r.past_destinations = old.past_destinations)
        ∧ (st.destination ≠ "" → st.destination ∉ old.past_destinations →
            r.past_destinations.getLast? = some st.destination
            ∧ r.past_destinations <:+ old.past_destinations ++ [st.destination])
        ∧ (st.destination ≠ "" → st.destination ∉ old.past_destinations →
            old.past_destinations.length = 5 →
            r.past_destinations = old.past_destinations.tail ++ [st.destination]
            ∧ r.past_destinations.length = 5) := by
  intro recs st old h1 h2 h3 h4
  have hsearch : memSearch recs st.user_id = .ok [old] := by
    simp [memSearch, h2]
  have hsave : save_user_preferences_node (memSearch recs) st
      = (st, some ⟨st.preferences, st.hobbies,
          if st.destination ≠ "" ∧ st.destination ∉ old.past_destinations then
            (old.past_destinations ++ [st.destination]).drop
              ((old.past_destinations.length + 1) - 5)
          else old.past_destinations⟩) := by
    unfold save_user_preferences_node
    rw [if_pos h1, hsearch]
  refine ⟨_, by rw [hsave], ?_, rfl, rfl, ?_, ?_, ?_, ?_, ?_⟩
  · -- round trip: the saved record is what a subsequent load sees
    unfold saveToStore
    rw [hsave]
    simp [memSearch, memPut]
  · -- no duplicates
    by_cases hc : st.destination ≠ "" ∧ st.destination ∉ old.past_destinations
    · rw [if_pos hc]
      refine List.Nodup.sublist (List.drop_sublist _ _) ?_
      exact List.nodup_append.mpr ⟨h3, List.nodup_singleton _,
        fun a ha hb => hc.2 (by rw [List.mem_singleton] at hb; rwa [hb] at ha)⟩
    · rw [if_neg hc]; exact h3
  · -- bounded by 5
    by_cases hc : st.destination ≠ "" ∧ st.destination ∉ old.past_destinations
    · rw [if_pos hc]
      simp only [List.length_drop, List.length_append, List.length_singleton]
      omega
    · rw [if_neg hc]; exact h4
  · -- already present or empty: list unchanged
    intro h
    rw [if_neg]
    rcases h with h | h
    · exact fun hc => hc.1 h
    · exact fun hc => hc.2 h
  · -- new destination: appended last, order preserved
    intro hd hmem
    rw [if_pos ⟨hd, hmem⟩]
    have hk : (old.past_destinations.length + 1) - 5 ≤ old.past_destinations.length := by
      omega
    constructor
    · rw [List.drop_append_of_le_length hk, List.getLast?_concat]
    · exact List.drop_suffix _ _
  · -- 6th distinct destination: oldest evicted, exactly 5 remain
    intro hd hmem hlen
    rw [if_pos ⟨hd, hmem⟩, hlen]
    have h5 : (5 + 1 : Nat) - 5 = 1 := by omega
    rw [h5, List.drop_append_of_le_length (by omega), List.drop_one]
    refine ⟨rfl, ?_⟩
    simp [List.length_tail, hlen]

/-- Witness for C6: saving `exState`'s destination `"Paris"` over a
stored record holding five other destinations evicts the oldest. -/
theorem c6_witness :
    ∃ r : PreferenceRecord,
      (save_user_preferences_node (memSearch exRecs) exState).2 = some r
      ∧ memSearch (saveToStore exRecs exState) exState.user_id = .ok [r]
      ∧ r.preferences = exState.preferences
      ∧ r.hobbies = exState.hobbies
      ∧ r.past_destinations.Nodup
      ∧ r.past_destinations.length ≤ 5
      ∧ ((exState.destination = "" ∨ exState.destination ∈ exOld.past_destinations) →
          r.past_destinations = exOld.past_destinations)
      ∧ (exState.destination ≠ "" → exState.destination ∉ exOld.past_destinations →
          r.past_destinations.getLast? = some exState.destination
          ∧ r.past_destinations <:+ exOld.past_destinations ++ [exState.destination])
      ∧ (exState.destination ≠ "" → exState.destination ∉ exOld.past_destinations →
          exOld.past_destinations.length = 5 →
          r.past_destinations = exOld.past_destinations.tail ++ [exState.destination]
          ∧ r.past_destinations.length = 5) :=
  c6_preference_roundtrip exRecs exState exOld (by decide) (by decide)
    (by decide) (by decide)

end TravelAgent
